import Mathlib

/-! ## Definitions -/

/-- Boolean test that the first list is a prefix of the second. -/
def isPrefixL : List Char → List Char → Bool
  | [], _ => true
  | _ :: _, [] => false
  | a :: as, b :: bs => a == b && isPrefixL as bs

/-- Boolean test that `needle` occurs contiguously inside the second list.
Models the Python substring operator `needle in haystack`. -/
def isSubstrL (needle : List Char) : List Char → Bool
  | [] => needle.isEmpty
  | c :: rest => isPrefixL needle (c :: rest) || isSubstrL needle rest

/-- `containsSub haystack needle` models Python `needle in haystack`. -/
def containsSub (haystack needle : String) : Bool :=
  isSubstrL needle.data haystack.data

/-- Models the Python slash-membership test (slash in s) on the character list of `s`. -/
def hasSlash : List Char → Bool
  | [] => false
  | c :: rest => c == '/' || hasSlash rest

/-- Models the Python split of `s` at the slash separator, on character
lists: splits at every slash, keeping empty pieces, and returns `[[]]`
on the empty string. -/
def splitSlash : List Char → List (List Char)
  | [] => [[]]
  | c :: rest =>
    if c == '/' then [] :: splitSlash rest
    else
      match splitSlash rest with
      | [] => [[c]]
      | p :: ps => (c :: p) :: ps

/-- Models Python `s.zfill(w)`: left-pad with zeros to width `w`, placing
the padding after a leading sign character when present. -/
def zfillL (w : Nat) (s : List Char) : List Char :=
  if w ≤ s.length then s
  else
    match s with
    | [] => List.replicate w '0'
    | c :: rest =>
      if c == '-' || c == '+' then c :: (List.replicate (w - s.length) '0' ++ rest)
      else List.replicate (w - s.length) '0' ++ (c :: rest)

/-- String-level wrapper of `zfillL`. -/
def zfillS (w : Nat) (s : String) : String := String.mk (zfillL w s.data)

/-- Embeds `FormPopulator._convert_date_format` (src/form_populator.py,
lines 416-430): on a value containing `/` that splits into exactly three
pieces it rebuilds `year-month-day` with the first piece in the month
position; every other value is returned unchanged. -/
def convertDateFormat (dateStr : String) : String :=
  if hasSlash dateStr.data then
    match splitSlash dateStr.data with
    | [m, d, y] => String.mk (y ++ '-' :: (zfillL 2 m ++ '-' :: zfillL 2 d))
    | _ => dateStr
  else dateStr

/-- One typed fill operation `{action, selector, value}`. -/
structure FillCommand where
  action : String
  selector : String
  value : String
deriving DecidableEq, Repr

/-- A single-quote character, used inside selector strings. -/
def quo : String := String.mk [Char.ofNat 39]

/-- The input selector the source builds for an id fragment (single quotes around the id). -/
def inputSel (pat : String) : String := "input[id=" ++ quo ++ pat ++ quo ++ "]"

/-- The select selector the source builds for an id fragment (single quotes around the id). -/
def selectSel (pat : String) : String := "select[id=" ++ quo ++ pat ++ quo ++ "]"

/-- Models the id-presence substring test of src/form_populator.py line
230, which tries the double-quoted and the single-quoted attribute
spelling. -/
def idPresent (formHtml pat : String) : Bool :=
  containsSub formHtml ("id=\"" ++ pat ++ "\"") ||
  containsSub formHtml ("id=" ++ quo ++ pat ++ quo)

/-- Models the select-tag substring test of line 232, which tries the
double-quoted and the single-quoted attribute spelling. -/
def selectTagPresent (formHtml pat : String) : Bool :=
  containsSub formHtml ("<select id=\"" ++ pat ++ "\"") ||
  containsSub formHtml ("<select id=" ++ quo ++ pat ++ quo)

/-- Models the lower-cased substring test for the negation marker `not`
(lines 207 and 217), with the ASCII lowering performed by
`Char.toLower` (the values involved are ASCII). -/
def hasNot (value : String) : Bool :=
  containsSub (String.mk (value.data.map Char.toLower)) "not"

/-- Models the lower-cased substring test for the marker `am` (line 217). -/
def hasAm (value : String) : Bool :=
  containsSub (String.mk (value.data.map Char.toLower)) "am"

/-- Models the Python startswith test on field names. -/
def pyStartsWith (s pre : String) : Bool := isPrefixL pre.data s.data

/-- The static pattern table `field_mappings` of
`_generate_deterministic_commands` (src/form_populator.py lines 170-199),
transcribed in declaration order. -/
def field_mappings : List (String × List String) := [
  ("attorney_family_name", ["family-name", "last-name", "surname"]),
  ("attorney_given_name", ["given-name", "first-name", "firstname"]),
  ("attorney_middle_name", ["middle-name", "middlename"]),
  ("attorney_street_number", ["street-number", "street", "address"]),
  ("attorney_city", ["city", "town"]),
  ("attorney_state", ["state", "province"]),
  ("attorney_zip_code", ["zip", "postal-code", "zipcode"]),
  ("attorney_country", ["country"]),
  ("attorney_daytime_phone", ["daytime-phone", "phone", "telephone"]),
  ("attorney_mobile_phone", ["mobile-phone", "mobile", "cell"]),
  ("attorney_email", ["email", "e-mail"]),
  ("attorney_licensing_authority", ["licensing-authority", "bar-authority"]),
  ("attorney_bar_number", ["bar-number", "bar-id"]),
  ("attorney_law_firm", ["law-firm", "firm", "organization"]),
  ("attorney_subject_to_restrictions", ["not-subject", "am-subject"]),
  ("beneficiary_last_name", ["passport-surname", "last-name"]),
  ("beneficiary_first_name", ["passport-given-names", "first-name"]),
  ("passport_number", ["passport-number", "passport-no"]),
  ("passport_country_of_issue", ["passport-country", "country-of-issue"]),
  ("passport_nationality", ["passport-nationality", "nationality"]),
  ("beneficiary_date_of_birth", ["passport-dob", "date-of-birth", "dob"]),
  ("beneficiary_place_of_birth", ["passport-pob", "place-of-birth", "birthplace"]),
  ("beneficiary_sex", ["passport-sex", "sex", "gender"]),
  ("passport_date_of_issue", ["passport-issue-date", "date-of-issue"]),
  ("passport_date_of_expiration", ["passport-expiry-date", "date-of-expiration"])]

/-- Python dict access `field_mappings[data_field]` guarded by
`data_field in field_mappings`. -/
def assocLookup (k : String) : List (String × List String) → Option (List String)
  | [] => none
  | (k2, v) :: rest => if k = k2 then some v else assocLookup k rest

/-- The inner `for id_pattern in field_mappings[data_field]` loop of
`_generate_deterministic_commands` (lines 203-252): walks the candidate
fragments in order and stops (`break`) at the first one that fires.  The
`attorney_subject_to_restrictions` field takes the special branch (lines
205-227), which tests only the value, never the markup; every other field
fires on the first fragment whose id is present in the markup (line 230)
and classifies the action: a co-located `<select>` tag gives `select`,
otherwise a `type="date"` occurrence ANYWHERE in the markup gives `date`,
otherwise a `type="checkbox"` occurrence anywhere gives `check`,
otherwise `fill` (lines 232-243). -/
def scanFragments (formHtml dataField value : String) : List String → List FillCommand
  | [] => []
  | pat :: rest =>
    if dataField = "attorney_subject_to_restrictions" then
      if hasNot value && (pat == "not-subject") then
        [⟨"check", inputSel pat, value⟩]
      else if (hasAm value && !hasNot value) && (pat == "am-subject") then
        [⟨"check", inputSel pat, value⟩]
      else scanFragments formHtml dataField value rest
    else if idPresent formHtml pat then
      if selectTagPresent formHtml pat then
        [⟨"select", selectSel pat, value⟩]
      else if containsSub formHtml "type=\"date\"" && idPresent formHtml pat then
        [⟨"date", inputSel pat, value⟩]
      else if containsSub formHtml "type=\"checkbox\"" && idPresent formHtml pat then
        [⟨"check", inputSel pat, value⟩]
      else
        [⟨"fill", inputSel pat, value⟩]
    else scanFragments formHtml dataField value rest

/-- The body of the outer `for data_field, value in data_dict.items()`
loop for one entry: fields outside the pattern table produce nothing. -/
def matchField (formHtml dataField value : String) : List FillCommand :=
  match assocLookup dataField field_mappings with
  | some frags => scanFragments formHtml dataField value frags
  | none => []

/-- The derived eligibility operation appended at lines 257-261. -/
def eligCmd : FillCommand := ⟨"check", inputSel "attorney-eligible", "attorney"⟩

/-- Embeds `_generate_deterministic_commands` (lines 165-264): one pass
over the non-null data dict in order, then the auto-check of
`attorney-eligible` when any attorney-prefixed field is present and the
id occurs in the markup (lines 254-263). -/
def generateDeterministicCommands (formHtml : String)
    (dataDict : List (String × String)) : List FillCommand :=
  (dataDict.flatMap fun kv => matchField formHtml kv.1 kv.2) ++
  (if dataDict.any (fun kv => pyStartsWith kv.1 "attorney_") &&
      idPresent formHtml "attorney-eligible"
   then [eligCmd] else [])

/-- Embeds the residual-data computation of `_generate_fill_commands`
(lines 141-142): a field survives iff its value is NOT a substring of any
already-generated command value. -/
def remainingData (formHtml : String) (dataDict : List (String × String)) :
    List (String × String) :=
  dataDict.filter fun kv =>
    ! (generateDeterministicCommands formHtml dataDict).any fun c =>
        containsSub c.value kv.2

/-- The model-assisted sublist that `_generate_fill_commands` appends
(lines 144-160): nothing when no residual data remains (the model is not
called), otherwise the model response filtered against selectors already
present in the deterministic result.  `llmResponse` stands for the parsed
response of `_generate_llm_commands`, an external model call; a malformed
response is the empty list. -/
def llmPart (formHtml : String) (dataDict : List (String × String))
    (llmResponse : List FillCommand) : List FillCommand :=
  if (remainingData formHtml dataDict).isEmpty then []
  else
    llmResponse.filter fun c =>
      decide (c.selector ∉
        (generateDeterministicCommands formHtml dataDict).map fun c2 => c2.selector)

/-- Embeds `_generate_fill_commands` (lines 115-163): deterministic
commands followed by the surviving model commands. -/
def generateFillCommands (formHtml : String) (dataDict : List (String × String))
    (llmResponse : List FillCommand) : List FillCommand :=
  generateDeterministicCommands formHtml dataDict ++
  llmPart formHtml dataDict llmResponse

structure FormA28Data where
  attorney_online_account : Option String := none
  attorney_family_name : Option String := none
  attorney_given_name : Option String := none
  attorney_middle_name : Option String := none
  attorney_street_number : Option String := none
  attorney_apt_ste_flr : Option String := none
  attorney_city : Option String := none
  attorney_state : Option String := none
  attorney_zip_code : Option String := none
  attorney_country : Option String := none
  attorney_daytime_phone : Option String := none
  attorney_mobile_phone : Option String := none
  attorney_email : Option String := none
  attorney_fax_number : Option String := none
  attorney_licensing_authority : Option String := none
  attorney_bar_number : Option String := none
  attorney_subject_to_restrictions : Option String := none
  attorney_law_firm : Option String := none
  attorney_recognized_org : Option String := none
  attorney_accreditation_date : Option String := none
  beneficiary_last_name : Option String := none
  beneficiary_first_name : Option String := none
  beneficiary_middle_name : Option String := none
  passport_number : Option String := none
  passport_country_of_issue : Option String := none
  passport_nationality : Option String := none
  beneficiary_date_of_birth : Option String := none
  beneficiary_place_of_birth : Option String := none
  beneficiary_sex : Option String := none
  passport_date_of_issue : Option String := none
  passport_date_of_expiration : Option String := none
  client_family_name : Option String := none
  client_given_name : Option String := none
  client_middle_name : Option String := none
  client_daytime_phone : Option String := none
  client_mobile_phone : Option String := none
  client_email : Option String := none
  client_street_number : Option String := none
  client_apt_ste_flr : Option String := none
  client_city : Option String := none
  client_state : Option String := none
  client_zip_code : Option String := none
  client_country : Option String := none
  client_uscis_account : Option String := none
  client_alien_number : Option String := none
deriving DecidableEq, Repr

/-- The record with every field absent: `FormA28Data()`. -/
def FormA28Data.empty : FormA28Data := {}

/-- Field names with their accessors, in declaration order (the order of
`model_dump`). -/
def formFieldList : List (String × (FormA28Data → Option String)) := [
  ("attorney_online_account", FormA28Data.attorney_online_account),
  ("attorney_family_name", FormA28Data.attorney_family_name),
  ("attorney_given_name", FormA28Data.attorney_given_name),
  ("attorney_middle_name", FormA28Data.attorney_middle_name),
  ("attorney_street_number", FormA28Data.attorney_street_number),
  ("attorney_apt_ste_flr", FormA28Data.attorney_apt_ste_flr),
  ("attorney_city", FormA28Data.attorney_city),
  ("attorney_state", FormA28Data.attorney_state),
  ("attorney_zip_code", FormA28Data.attorney_zip_code),
  ("attorney_country", FormA28Data.attorney_country),
  ("attorney_daytime_phone", FormA28Data.attorney_daytime_phone),
  ("attorney_mobile_phone", FormA28Data.attorney_mobile_phone),
  ("attorney_email", FormA28Data.attorney_email),
  ("attorney_fax_number", FormA28Data.attorney_fax_number),
  ("attorney_licensing_authority", FormA28Data.attorney_licensing_authority),
  ("attorney_bar_number", FormA28Data.attorney_bar_number),
  ("attorney_subject_to_restrictions", FormA28Data.attorney_subject_to_restrictions),
  ("attorney_law_firm", FormA28Data.attorney_law_firm),
  ("attorney_recognized_org", FormA28Data.attorney_recognized_org),
  ("attorney_accreditation_date", FormA28Data.attorney_accreditation_date),
  ("beneficiary_last_name", FormA28Data.beneficiary_last_name),
  ("beneficiary_first_name", FormA28Data.beneficiary_first_name),
  ("beneficiary_middle_name", FormA28Data.beneficiary_middle_name),
  ("passport_number", FormA28Data.passport_number),
  ("passport_country_of_issue", FormA28Data.passport_country_of_issue),
  ("passport_nationality", FormA28Data.passport_nationality),
  ("beneficiary_date_of_birth", FormA28Data.beneficiary_date_of_birth),
  ("beneficiary_place_of_birth", FormA28Data.beneficiary_place_of_birth),
  ("beneficiary_sex", FormA28Data.beneficiary_sex),
  ("passport_date_of_issue", FormA28Data.passport_date_of_issue),
  ("passport_date_of_expiration", FormA28Data.passport_date_of_expiration),
  ("client_family_name", FormA28Data.client_family_name),
  ("client_given_name", FormA28Data.client_given_name),
  ("client_middle_name", FormA28Data.client_middle_name),
  ("client_daytime_phone", FormA28Data.client_daytime_phone),
  ("client_mobile_phone", FormA28Data.client_mobile_phone),
  ("client_email", FormA28Data.client_email),
  ("client_street_number", FormA28Data.client_street_number),
  ("client_apt_ste_flr", FormA28Data.client_apt_ste_flr),
  ("client_city", FormA28Data.client_city),
  ("client_state", FormA28Data.client_state),
  ("client_zip_code", FormA28Data.client_zip_code),
  ("client_country", FormA28Data.client_country),
  ("client_uscis_account", FormA28Data.client_uscis_account),
  ("client_alien_number", FormA28Data.client_alien_number)]

/-- The non-null field/value dict of a record, in declaration order. -/
def FormA28Data.toDict (r : FormA28Data) : List (String × String) :=
  formFieldList.filterMap fun nf => (nf.2 r).map fun v => (nf.1, v)

/-- Boolean test that every field of the record is absent. -/
def FormA28Data.allAbsent (r : FormA28Data) : Bool :=
  formFieldList.all fun nf => (nf.2 r).isNone

def htmlC1cex : String := "<input id=\"last-name\">"

def recC1cex : FormA28Data :=
  { attorney_family_name := some "Smith", beneficiary_last_name := some "Jones" }

def htmlC1w : String := "<input id=\"family-name\"><input id=\"attorney-eligible\">"

def recC1w : FormA28Data :=
  { attorney_family_name := some "Smith", client_email := some "zzz@q.com" }

def llmC1w : List FillCommand := [⟨"fill", inputSel "client-email", "zzz@q.com"⟩]

def htmlC2cex : String := "<input id=\"city\">"

def recC2cex : FormA28Data :=
  { attorney_city := some "Paris", client_email := some "a" }

def htmlC2w : String := "<input id=\"city\">"

def recC2w : FormA28Data :=
  { attorney_city := some "Paris", client_email := some "zzz" }

def htmlC4cex : String := "<input id=\"city\"><input id=\"dob\" type=\"date\">"

def recC4cex : FormA28Data := { attorney_city := some "Paris" }

def htmlC4sel : String := "<select id=\"city\"></select>"

def htmlC4date : String := "<input id=\"city\"><input id=\"x\" type=\"date\">"

def htmlC4chk : String := "<input id=\"city\"><input id=\"y\" type=\"checkbox\">"

def htmlC4fill : String := "<input id=\"city\">"

def htmlC5cex : String := "<input id=\"family-name\"><input id=\"attorney-eligible\">"

def recC5cex : FormA28Data :=
  { attorney_family_name := some "Ann", client_email := some "b@c.d" }

def llmC5cex : List FillCommand := [⟨"fill", inputSel "client-email", "b@c.d"⟩]

def htmlC7w : String :=
  "<input id=\"not-subject\" type=\"checkbox\"><input id=\"am-subject\" type=\"checkbox\">"

def recC7a : FormA28Data :=
  { attorney_subject_to_restrictions := some "I am NOT subject to restrictions" }

def recC7b : FormA28Data :=
  { attorney_subject_to_restrictions := some "I AM subject to restrictions" }

def htmlC10w : String := "<form></form>"

/-- A document handle of the files API: name plus processing state (the
source compares the state against `"PROCESSING"` and `"FAILED"`). -/
structure GFile where
  name : String
  state : String
deriving DecidableEq, Repr

/-- Models the `while uploaded_file.state == "PROCESSING"` poll loop of
`upload_document_to_gemini` (src/main.py lines 127-133) and the
subsequent FAILED check: `polls` is the finite sequence of
`client.files.get` outcomes the loop observes (an exception from `get`
is an `error` entry).  The embedding covers terminating runs; running
out of poll results while still processing (the source would block
forever) is mapped to an error. -/
def pollUntilDone : GFile → List (Except String GFile) → Except String GFile
  | f, [] =>
    if f.state = "PROCESSING" then Except.error "poll sequence exhausted"
    else if f.state = "FAILED" then Except.error "File processing failed"
    else Except.ok f
  | f, g :: rest =>
    if f.state = "PROCESSING" then
      match g with
      | Except.error e => Except.error e
      | Except.ok f2 => pollUntilDone f2 rest
    else if f.state = "FAILED" then Except.error "File processing failed"
    else Except.ok f

/-- Models `upload_document_to_gemini` (src/main.py lines 116-136): the
falsy-or-missing-file guard raising ValueError, the upload call (whose
outcome is `uploadRes`), then the poll loop. -/
def uploadDocumentToGemini (filePath : String) (fileExists : Bool)
    (uploadRes : Except String GFile) (polls : List (Except String GFile)) :
    Except String GFile :=
  if filePath = "" ∨ fileExists = false then Except.error "File not found"
  else
    match uploadRes with
    | Except.error e => Except.error e
    | Except.ok f => pollUntilDone f polls

/-- One `if <path>: uploaded_files.append(upload_document_to_gemini(...))`
step of `extract_all_data` (lines 145-151), including Python truthiness
of the optional path. -/
def uploadStep (path : Option String) (fileExists : Bool)
    (uploadRes : Except String GFile) (polls : List (Except String GFile)) :
    Except String (List GFile) :=
  match path with
  | none => Except.ok []
  | some p =>
    if p = "" then Except.ok []
    else (uploadDocumentToGemini p fileExists uploadRes polls).map fun f => [f]

/-- Outcomes of the external calls consumed by `extract_all_data`:
per-document upload environments, the structured-output request
(`generate`, returning `response.text`) and the pydantic validation
(`parse`, modelling `FormA28Data.model_validate_json`). -/
structure ExtractEnv where
  passportFileExists : Bool
  passportUpload : Except String GFile
  passportPolls : List (Except String GFile)
  g28FileExists : Bool
  g28Upload : Except String GFile
  g28Polls : List (Except String GFile)
  generate : List GFile → Except String String
  parse : String → Except String FormA28Data

/-- The body of the `try` block of `extract_all_data` (src/main.py lines
141-240): upload each supplied document, return an empty record when no
documents were uploaded, otherwise issue the extraction request and
parse its response. -/
def extractBody (passportPath g28Path : Option String) (env : ExtractEnv) :
    Except String FormA28Data := do
  let fs1 ← uploadStep passportPath env.passportFileExists env.passportUpload
    env.passportPolls
  let fs2 ← uploadStep g28Path env.g28FileExists env.g28Upload env.g28Polls
  let files := fs1 ++ fs2
  if files.isEmpty then
    pure FormA28Data.empty
  else do
    let text ← env.generate files
    env.parse text

/-- Models `extract_all_data` (src/main.py lines 139-244): the whole body
runs under a `try` whose `except` clause returns `FormA28Data()`. -/
def extractAllData (passportPath g28Path : Option String) (env : ExtractEnv) :
    FormA28Data :=
  match extractBody passportPath g28Path env with
  | Except.ok r => r
  | Except.error _ => FormA28Data.empty

def gfileDone : GFile := ⟨"files/abc", "ACTIVE"⟩

def gfileProc : GFile := ⟨"files/abc", "PROCESSING"⟩

def gfileFail : GFile := ⟨"files/abc", "FAILED"⟩

def envC8 : ExtractEnv :=
  { passportFileExists := true
    passportUpload := Except.ok gfileDone
    passportPolls := []
    g28FileExists := true
    g28Upload := Except.ok gfileDone
    g28Polls := []
    generate := fun _ => Except.error "boom"
    parse := fun _ => Except.error "bad json" }

/-! ## Theorems -/

theorem isPrefixL_refl (l : List Char) : isPrefixL l l = true := by
  induction l with
  | nil => rfl
  | cons a as ih => simp [isPrefixL, ih]

theorem isSubstrL_self (l : List Char) : isSubstrL l l = true := by
  cases l with
  | nil => rfl
  | cons c rest => simp [isSubstrL, isPrefixL_refl]

theorem containsSub_refl (s : String) : containsSub s s = true :=
  isSubstrL_self s.data

theorem hasSlash_append (a b : List Char) :
    hasSlash (a ++ b) = (hasSlash a || hasSlash b) := by
  induction a with
  | nil => simp [hasSlash]
  | cons c rest ih => simp [hasSlash, ih, Bool.or_assoc]

theorem hasSlash_replicate_zero (n : Nat) :
    hasSlash (List.replicate n '0') = false := by
  induction n with
  | zero => rfl
  | succ k ih => simp [List.replicate, hasSlash, ih]

theorem splitSlash_ne_nil (l : List Char) : splitSlash l ≠ [] := by
  cases l with
  | nil => simp [splitSlash]
  | cons c rest =>
    simp only [splitSlash]
    by_cases h : c == '/'
    · simp [h]
    · simp only [h]
      cases hs : splitSlash rest with
      | nil => simp
      | cons p ps => simp

theorem splitSlash_no_slash (l : List Char) :
    ∀ p ∈ splitSlash l, hasSlash p = false := by
  induction l with
  | nil =>
    intro p hp
    simp [splitSlash] at hp
    simp [hp, hasSlash]
  | cons c rest ih =>
    intro p hp
    simp only [splitSlash] at hp
    by_cases h : c == '/'
    · simp [h] at hp
      rcases hp with hp | hp
      · simp [hp, hasSlash]
      · exact ih p hp
    · simp only [h, Bool.false_eq_true, if_false] at hp
      cases hs : splitSlash rest with
      | nil => exact absurd hs (splitSlash_ne_nil rest)
      | cons q qs =>
        rw [hs] at hp
        simp at hp
        rcases hp with hp | hp
        · subst hp
          have hq : hasSlash q = false := ih q (by rw [hs]; exact List.mem_cons_self q qs)
          simp [hasSlash, h, hq]
        · exact ih p (by rw [hs]; exact List.mem_cons_of_mem q hp)

theorem hasSlash_zfillL (w : Nat) (s : List Char) (h : hasSlash s = false) :
    hasSlash (zfillL w s) = false := by
  unfold zfillL
  by_cases hw : w ≤ s.length
  · simp [hw, h]
  · simp only [hw, if_false]
    cases s with
    | nil => simp [hasSlash_replicate_zero]
    | cons c rest =>
      simp only [hasSlash] at h
      by_cases hc : c == '-' || c == '+'
      · simp only [hc, if_true]
        simp [hasSlash, hasSlash_append, hasSlash_replicate_zero,
          Bool.or_eq_false_iff] at h ⊢
        exact ⟨h.1, h.2⟩
      · simp only [hc, if_false]
        simp [hasSlash, hasSlash_append, hasSlash_replicate_zero,
          Bool.or_eq_false_iff] at h ⊢
        exact ⟨h.1, h.2⟩

theorem convertDateFormat_no_slash (s : String) (h : hasSlash s.data = false) :
    convertDateFormat s = s := by
  unfold convertDateFormat
  rw [h]
  rfl

theorem convertDateFormat_three (s : String) (m d y : List Char)
    (hb : hasSlash s.data = true) (hs : splitSlash s.data = [m, d, y]) :
    convertDateFormat s = String.mk (y ++ '-' :: (zfillL 2 m ++ '-' :: zfillL 2 d)) := by
  unfold convertDateFormat
  rw [hb, hs]
  rfl

theorem convertDateFormat_one (s : String) (m : List Char)
    (hb : hasSlash s.data = true) (hs : splitSlash s.data = [m]) :
    convertDateFormat s = s := by
  unfold convertDateFormat
  rw [hb, hs]
  rfl

theorem convertDateFormat_two (s : String) (m d : List Char)
    (hb : hasSlash s.data = true) (hs : splitSlash s.data = [m, d]) :
    convertDateFormat s = s := by
  unfold convertDateFormat
  rw [hb, hs]
  rfl

theorem convertDateFormat_four (s : String) (m d y z : List Char) (tl : List (List Char))
    (hb : hasSlash s.data = true) (hs : splitSlash s.data = m :: d :: y :: z :: tl) :
    convertDateFormat s = s := by
  unfold convertDateFormat
  rw [hb, hs]
  rfl

/-- Applying the conversion to its own output changes nothing: either the
input is returned unchanged, or the rebuilt date contains no slash and is
therefore left alone by a second pass. -/
theorem convertDateFormat_fixout (s : String) :
    convertDateFormat (convertDateFormat s) = convertDateFormat s := by
  cases hb : hasSlash s.data with
  | false =>
    rw [convertDateFormat_no_slash s hb, convertDateFormat_no_slash s hb]
  | true =>
    rcases hs : splitSlash s.data with _ | ⟨m, _ | ⟨d, _ | ⟨y, _ | ⟨z, tl⟩⟩⟩⟩
    · exact absurd hs (splitSlash_ne_nil s.data)
    · have he := convertDateFormat_one s m hb hs
      rw [he]; exact he
    · have he := convertDateFormat_two s m d hb hs
      rw [he]; exact he
    · have he := convertDateFormat_three s m d y hb hs
      have hm : hasSlash m = false :=
        splitSlash_no_slash s.data m (by rw [hs]; simp)
      have hd : hasSlash d = false :=
        splitSlash_no_slash s.data d (by rw [hs]; simp)
      have hy : hasSlash y = false :=
        splitSlash_no_slash s.data y (by rw [hs]; simp)
      have hout : hasSlash (String.mk (y ++ '-' :: (zfillL 2 m ++ '-' :: zfillL 2 d))).data = false := by
        show hasSlash (y ++ '-' :: (zfillL 2 m ++ '-' :: zfillL 2 d)) = false
        simp [hasSlash_append, hasSlash, hy,
          hasSlash_zfillL 2 m hm, hasSlash_zfillL 2 d hd]
      rw [he, convertDateFormat_no_slash _ hout]
    · have he := convertDateFormat_four s m d y z tl hb hs
      rw [he]; exact he

theorem splitSlash_append_sep (a t : List Char) (h : hasSlash a = false) :
    splitSlash (a ++ '/' :: t) = a :: splitSlash t := by
  induction a with
  | nil => simp [splitSlash]
  | cons c cs ih =>
    simp only [hasSlash, Bool.or_eq_false_iff] at h
    simp only [List.cons_append, splitSlash, h.1, Bool.false_eq_true, if_false]
    rw [List.append_eq, ih h.2]

theorem splitSlash_single (a : List Char) (h : hasSlash a = false) :
    splitSlash a = [a] := by
  induction a with
  | nil => rfl
  | cons c cs ih =>
    simp only [hasSlash, Bool.or_eq_false_iff] at h
    simp only [splitSlash, h.1, Bool.false_eq_true, if_false]
    rw [ih h.2]

theorem str_data_append (a b : String) : (a ++ b).data = a.data ++ b.data := rfl

/-- Claim C3 (amended): the source notation converted by
`_convert_date_format` is month/day/year (`MM/DD/YYYY`), not
day/month/year: a three-part slash-separated value `m/d/y` is rebuilt as
`y-m-d` with the FIRST part placed in the month position (zero-padded),
and a value containing no slash — in particular one already in
year-month-day notation — is returned unchanged.  The function is total,
so it never raises. -/
theorem c3_date_conversion_amended :
    (∀ m d y : String, hasSlash m.data = false → hasSlash d.data = false →
        hasSlash y.data = false →
        convertDateFormat (m ++ "/" ++ d ++ "/" ++ y) =
          y ++ "-" ++ zfillS 2 m ++ "-" ++ zfillS 2 d)
    ∧ (∀ s : String, hasSlash s.data = false → convertDateFormat s = s) := by
  constructor
  · intro m d y hm hd hy
    have hdata : (m ++ "/" ++ d ++ "/" ++ y).data =
        m.data ++ '/' :: (d.data ++ '/' :: y.data) := by
      simp [str_data_append, List.append_assoc]
    have hsplit : splitSlash (m ++ "/" ++ d ++ "/" ++ y).data =
        [m.data, d.data, y.data] := by
      rw [hdata, splitSlash_append_sep _ _ hm, splitSlash_append_sep _ _ hd,
        splitSlash_single _ hy]
    have hb : hasSlash (m ++ "/" ++ d ++ "/" ++ y).data = true := by
      rw [hdata, hasSlash_append]
      simp [hasSlash]
    rw [convertDateFormat_three _ _ _ _ hb hsplit]
    show String.mk (y.data ++ '-' :: (zfillL 2 m.data ++ '-' :: zfillL 2 d.data)) = _
    have : (y ++ "-" ++ zfillS 2 m ++ "-" ++ zfillS 2 d).data =
        y.data ++ '-' :: (zfillL 2 m.data ++ '-' :: zfillL 2 d.data) := by
      simp [str_data_append, zfillS, List.append_assoc]
    cases hrhs : y ++ "-" ++ zfillS 2 m ++ "-" ++ zfillS 2 d with
    | mk l =>
      rw [hrhs] at this
      simp only at this
      rw [this]
  · intro s h
    exact convertDateFormat_no_slash s h

/-- Claim C3 witness: the instantiation from end-to-end scenario B —
`"05/04/1991"` converts with the first part as the month; and an
already-converted value is left unchanged. -/
theorem c3_date_conversion_amended_witness :
    hasSlash ("05" : String).data = false ∧
    convertDateFormat ("05" ++ "/" ++ "04" ++ "/" ++ "1991") =
      "1991" ++ "-" ++ zfillS 2 "05" ++ "-" ++ zfillS 2 "04" ∧
    convertDateFormat "1991-05-04" = "1991-05-04" :=
  ⟨by decide,
   c3_date_conversion_amended.1 "05" "04" "1991" (by decide) (by decide) (by decide),
   c3_date_conversion_amended.2 "1991-05-04" (by decide)⟩

/-- Claim C3 counterexample: on the day/month/year reading of the claim,
`"25/12/1991"` (25 December 1991) should become `"1991-12-25"`, but the
code produces `"1991-25-12"` because it places the first slash-part in
the month position. -/
theorem c3_dmy_counterexample :
    convertDateFormat "25/12/1991" = "1991-25-12" ∧
    ("1991-25-12" : String) ≠ "1991-12-25" := by
  constructor
  · decide
  · decide

/-- Claim C9: date conversion is idempotent — applying
`_convert_date_format` to its own output returns that output unchanged
(an already-converted or unparseable value is a fixed point, and a
converted output contains no slash, so a second pass leaves it alone). -/
theorem c9_convert_idempotent (s : String) :
    convertDateFormat (convertDateFormat s) = convertDateFormat s :=
  convertDateFormat_fixout s

theorem scanFragments_shape (formHtml dataField value : String) :
    ∀ frs (c : FillCommand), c ∈ scanFragments formHtml dataField value frs →
      c.value = value ∧ ∃ p ∈ frs, c.selector = inputSel p ∨ c.selector = selectSel p := by
  intro frs
  induction frs with
  | nil => intro c hc; simp [scanFragments] at hc
  | cons pat rest ih =>
    intro c hc
    simp only [scanFragments] at hc
    split at hc
    · split at hc
      · simp only [List.mem_singleton] at hc
        subst hc
        exact ⟨rfl, pat, List.mem_cons_self pat rest, Or.inl rfl⟩
      · split at hc
        · simp only [List.mem_singleton] at hc
          subst hc
          exact ⟨rfl, pat, List.mem_cons_self pat rest, Or.inl rfl⟩
        · obtain ⟨hv, p, hp, hsel⟩ := ih c hc
          exact ⟨hv, p, List.mem_cons_of_mem pat hp, hsel⟩
    · split at hc
      · split at hc
        · simp only [List.mem_singleton] at hc
          subst hc
          exact ⟨rfl, pat, List.mem_cons_self pat rest, Or.inr rfl⟩
        · split at hc
          · simp only [List.mem_singleton] at hc
            subst hc
            exact ⟨rfl, pat, List.mem_cons_self pat rest, Or.inl rfl⟩
          · split at hc
            · simp only [List.mem_singleton] at hc
              subst hc
              exact ⟨rfl, pat, List.mem_cons_self pat rest, Or.inl rfl⟩
            · simp only [List.mem_singleton] at hc
              subst hc
              exact ⟨rfl, pat, List.mem_cons_self pat rest, Or.inl rfl⟩
      · obtain ⟨hv, p, hp, hsel⟩ := ih c hc
        exact ⟨hv, p, List.mem_cons_of_mem pat hp, hsel⟩

theorem scanFragments_restr (formHtml value : String) :
    ∀ frs (c : FillCommand),
      c ∈ scanFragments formHtml "attorney_subject_to_restrictions" value frs →
      (hasNot value = true ∧ c = ⟨"check", inputSel "not-subject", value⟩) ∨
      (hasAm value = true ∧ hasNot value = false ∧
        c = ⟨"check", inputSel "am-subject", value⟩) := by
  intro frs
  induction frs with
  | nil => intro c hc; simp [scanFragments] at hc
  | cons pat rest ih =>
    intro c hc
    simp only [scanFragments] at hc
    rw [if_pos trivial] at hc
    split at hc
    next hcond =>
      simp only [Bool.and_eq_true, beq_iff_eq] at hcond
      simp only [List.mem_singleton] at hc
      subst hc
      exact Or.inl ⟨hcond.1, by rw [hcond.2]⟩
    next =>
      split at hc
      next hcond =>
        simp only [Bool.and_eq_true, beq_iff_eq, Bool.not_eq_true'] at hcond
        simp only [List.mem_singleton] at hc
        subst hc
        exact Or.inr ⟨hcond.1.1, hcond.1.2, by rw [hcond.2]⟩
      next => exact ih c hc

theorem scanFragments_absent (formHtml dataField value : String)
    (hfield : dataField ≠ "attorney_subject_to_restrictions") :
    ∀ frs, (∀ p ∈ frs, idPresent formHtml p = false) →
      scanFragments formHtml dataField value frs = [] := by
  intro frs
  induction frs with
  | nil => intro _; rfl
  | cons pat rest ih =>
    intro habs
    have hpat : idPresent formHtml pat = false := habs pat (List.mem_cons_self pat rest)
    simp only [scanFragments, if_neg hfield, hpat, Bool.false_eq_true, if_false]
    exact ih fun p hp => habs p (List.mem_cons_of_mem pat hp)

theorem assocLookup_mem (k : String) :
    ∀ (l : List (String × List String)) (v : List String),
      assocLookup k l = some v → (k, v) ∈ l := by
  intro l
  induction l with
  | nil => intro v h; simp [assocLookup] at h
  | cons kv rest ih =>
    intro v h
    obtain ⟨k2, v2⟩ := kv
    simp only [assocLookup] at h
    split at h
    next heq =>
      simp only [Option.some.injEq] at h
      rw [heq, h]
      exact List.mem_cons_self _ _
    next => exact List.mem_cons_of_mem _ (ih v h)

/-- Every fragment in the static table builds a selector distinct from the
eligibility selector, and outside the restrictions row also distinct from
the two attestation selectors. -/
theorem table_selector_facts :
    ∀ kv ∈ field_mappings, ∀ p ∈ kv.2,
      (inputSel p ≠ inputSel "attorney-eligible" ∧
       selectSel p ≠ inputSel "attorney-eligible") ∧
      (kv.1 ≠ "attorney_subject_to_restrictions" →
        (inputSel p ≠ inputSel "not-subject" ∧
         selectSel p ≠ inputSel "not-subject" ∧
         inputSel p ≠ inputSel "am-subject" ∧
         selectSel p ≠ inputSel "am-subject")) := by decide

theorem matchField_shape (formHtml dataField value : String) (c : FillCommand)
    (hc : c ∈ matchField formHtml dataField value) :
    c.value = value ∧ ∃ frags, (dataField, frags) ∈ field_mappings ∧
      ∃ p ∈ frags, c.selector = inputSel p ∨ c.selector = selectSel p := by
  unfold matchField at hc
  split at hc
  next frags heq =>
    obtain ⟨hv, p, hp, hsel⟩ := scanFragments_shape formHtml dataField value _ c hc
    exact ⟨hv, frags, assocLookup_mem dataField field_mappings frags heq, p, hp, hsel⟩
  next => simp at hc

theorem matchField_not_special (formHtml dataField value : String) (c : FillCommand)
    (hc : c ∈ matchField formHtml dataField value) :
    c.selector ≠ inputSel "attorney-eligible" ∧
    (dataField ≠ "attorney_subject_to_restrictions" →
      c.selector ≠ inputSel "not-subject" ∧ c.selector ≠ inputSel "am-subject") := by
  obtain ⟨-, frags, hfr, p, hp, hsel⟩ := matchField_shape formHtml dataField value c hc
  have hfacts := table_selector_facts (dataField, frags) hfr p hp
  rcases hsel with h | h <;> rw [h]
  · exact ⟨hfacts.1.1, fun hne => ⟨(hfacts.2 hne).1, (hfacts.2 hne).2.2.1⟩⟩
  · exact ⟨hfacts.1.2, fun hne => ⟨(hfacts.2 hne).2.1, (hfacts.2 hne).2.2.2⟩⟩

theorem genDet_mem_cases (html : String) (data : List (String × String))
    (c : FillCommand) (hc : c ∈ generateDeterministicCommands html data) :
    (∃ kv ∈ data, c ∈ matchField html kv.1 kv.2) ∨ c = eligCmd := by
  unfold generateDeterministicCommands at hc
  rw [List.mem_append] at hc
  rcases hc with hc | hc
  · rw [List.mem_flatMap] at hc
    exact Or.inl hc
  · right
    split at hc
    · simpa using hc
    · simp at hc

/-- Claim C1 (amended): deduplication holds ACROSS the two sublists — no
operation in the model-assisted sublist shares a selector with any
deterministic operation, because `_generate_fill_commands` filters the
model response against the already-filled selectors — but not within a
sublist: two data fields whose candidate-fragment lists share an id
fragment can both emit an operation on that selector (see the
counterexample). -/
theorem c1_cross_dedup (html : String) (data : List (String × String))
    (llm : List FillCommand) (c c2 : FillCommand)
    (hc : c ∈ generateDeterministicCommands html data)
    (hc2 : c2 ∈ llmPart html data llm) :
    c.selector ≠ c2.selector := by
  unfold llmPart at hc2
  split at hc2
  · simp at hc2
  · rw [List.mem_filter] at hc2
    obtain ⟨-, hdec⟩ := hc2
    rw [decide_eq_true_iff] at hdec
    intro heq
    apply hdec
    rw [← heq]
    exact List.mem_map_of_mem (fun c3 => c3.selector) hc

/-- Claim C2 (amended): the residual subset handed to the model-assisted
matcher is filtered by VALUE substring, not by field identity: a field
matched deterministically is always excluded (its own value is a
substring of the command it produced), but an unmatched non-null field is
included only when its value is not a substring of any generated
command value — otherwise it is dropped even though no operation was
emitted for it (see the counterexample). -/
theorem c2_residual_amended (html : String) (data : List (String × String))
    (k v : String) :
    ((k, v) ∈ data → matchField html k v ≠ [] → (k, v) ∉ remainingData html data)
    ∧ ((k, v) ∈ data →
       (∀ c ∈ generateDeterministicCommands html data, containsSub c.value v = false) →
       (k, v) ∈ remainingData html data) := by
  constructor
  · intro hkv hne hmem
    obtain ⟨c, hc⟩ := List.exists_mem_of_ne_nil _ hne
    have hcv : c.value = v := (matchField_shape html k v c hc).1
    have hcdet : c ∈ generateDeterministicCommands html data := by
      unfold generateDeterministicCommands
      apply List.mem_append_left
      rw [List.mem_flatMap]
      exact ⟨(k, v), hkv, hc⟩
    unfold remainingData at hmem
    rw [List.mem_filter] at hmem
    have h2 := hmem.2
    rw [Bool.not_eq_true', List.any_eq_false] at h2
    have h3 := h2 c hcdet
    rw [hcv] at h3
    exact h3 (containsSub_refl v)
  · intro hkv hall
    unfold remainingData
    rw [List.mem_filter]
    refine ⟨hkv, ?_⟩
    rw [Bool.not_eq_true', List.any_eq_false]
    intro c hc
    simp [hall c hc]

theorem genDet_single_city (html v : String)
    (helig : idPresent html "attorney-eligible" = false) :
    generateDeterministicCommands html [("attorney_city", v)] =
      scanFragments html "attorney_city" v ["city", "town"] := by
  unfold generateDeterministicCommands
  rw [helig]
  simp only [Bool.and_false, Bool.false_eq_true, if_false, List.append_nil,
    List.flatMap_cons, List.flatMap_nil]
  unfold matchField
  rfl

/-- Claim C4 (amended): when the deterministic matcher resolves a field
id fragment, a co-located `<select>` tag with that id yields `select`;
otherwise the `type="date"` and `type="checkbox"` cues are tested against
the WHOLE markup, not the matched element: a `type="date"` occurrence
anywhere forces `date`, else a `type="checkbox"` occurrence anywhere
forces `check`, else the action is `fill`.  A date or checkbox cue
elsewhere in the markup therefore DOES change the action (see the
counterexample). -/
theorem c4_action_classification_amended (html v : String)
    (hid : idPresent html "city" = true)
    (helig : idPresent html "attorney-eligible" = false) :
    (selectTagPresent html "city" = true →
      generateDeterministicCommands html [("attorney_city", v)] =
        [⟨"select", selectSel "city", v⟩]) ∧
    (selectTagPresent html "city" = false →
      containsSub html "type=\"date\"" = true →
      generateDeterministicCommands html [("attorney_city", v)] =
        [⟨"date", inputSel "city", v⟩]) ∧
    (selectTagPresent html "city" = false →
      containsSub html "type=\"date\"" = false →
      containsSub html "type=\"checkbox\"" = true →
      generateDeterministicCommands html [("attorney_city", v)] =
        [⟨"check", inputSel "city", v⟩]) ∧
    (selectTagPresent html "city" = false →
      containsSub html "type=\"date\"" = false →
      containsSub html "type=\"checkbox\"" = false →
      generateDeterministicCommands html [("attorney_city", v)] =
        [⟨"fill", inputSel "city", v⟩]) := by
  rw [genDet_single_city html v helig]
  refine ⟨?_, ?_, ?_, ?_⟩
  · intro hsel
    unfold scanFragments
    rw [if_neg (by decide), if_pos hid, if_pos hsel]
  · intro hsel hdate
    unfold scanFragments
    rw [if_neg (by decide), if_pos hid, if_neg (by rw [hsel]; simp),
      if_pos (by rw [hdate, hid]; rfl)]
  · intro hsel hdate hcheck
    unfold scanFragments
    rw [if_neg (by decide), if_pos hid, if_neg (by rw [hsel]; simp),
      if_neg (by rw [hdate]; simp), if_pos (by rw [hcheck, hid]; rfl)]
  · intro hsel hdate hcheck
    unfold scanFragments
    rw [if_neg (by decide), if_pos hid, if_neg (by rw [hsel]; simp),
      if_neg (by rw [hdate]; simp), if_neg (by rw [hcheck]; simp)]

/-- Claim C5 (amended): the merged list is ordered: deterministic FIELD
operations first, then the derived attorney-eligibility operation when
present, and the surviving model-assisted operations LAST — the derived
eligibility operation is appended inside the deterministic pass, before
the model sublist, not after it (see the counterexample). -/
theorem c5_merge_order_amended (html : String) (data : List (String × String))
    (llm : List FillCommand) :
    generateFillCommands html data llm =
      (data.flatMap fun kv => matchField html kv.1 kv.2) ++
      ((if data.any (fun kv => pyStartsWith kv.1 "attorney_") &&
           idPresent html "attorney-eligible" then [eligCmd] else []) ++
        llmPart html data llm) := by
  unfold generateFillCommands generateDeterministicCommands
  rw [List.append_assoc]

/-- Claim C6: the derived attorney-eligibility `check` operation occurs
at most once in the deterministic output, and exactly when at least one
attorney-prefixed field is non-null (present in the non-null data dict)
and the `attorney-eligible` id occurs in the markup. -/
theorem c6_elig_once (html : String) (data : List (String × String)) :
    ((generateDeterministicCommands html data).filter
        fun c => decide (c = eligCmd)).length =
      if data.any (fun kv => pyStartsWith kv.1 "attorney_") &&
          idPresent html "attorney-eligible" then 1 else 0 := by
  unfold generateDeterministicCommands
  rw [List.filter_append]
  have h1 : ((data.flatMap fun kv => matchField html kv.1 kv.2).filter
      fun c => decide (c = eligCmd)) = [] := by
    rw [List.filter_eq_nil_iff]
    intro c hc
    rw [List.mem_flatMap] at hc
    obtain ⟨kv, hkv, hcm⟩ := hc
    have hne := (matchField_not_special html kv.1 kv.2 c hcm).1
    simp only [decide_eq_true_iff]
    intro heq
    exact hne (by rw [heq]; rfl)
  rw [h1, List.nil_append]
  by_cases hcond : (data.any (fun kv => pyStartsWith kv.1 "attorney_") &&
      idPresent html "attorney-eligible") = true
  · rw [if_pos hcond, if_pos hcond]
    rfl
  · rw [if_neg hcond, if_neg hcond]
    rfl

/-- Claim C7: for any textual casing of the
`attorney_subject_to_restrictions` value (the casing is absorbed by the
lower-casing in `hasNot`): when the value contains the negation marker
`not`, the deterministic matcher never emits a `check` operation on the
non-negated `am-subject` checkbox, and when it does not contain `not`,
it never emits a `check` operation on the negated `not-subject`
checkbox. -/
theorem c7_restrictions_casing (html : String) (data : List (String × String)) :
    ((∀ kv ∈ data, kv.1 = "attorney_subject_to_restrictions" → hasNot kv.2 = true) →
      ∀ c ∈ generateDeterministicCommands html data,
        ¬(c.action = "check" ∧ c.selector = inputSel "am-subject"))
    ∧ ((∀ kv ∈ data, kv.1 = "attorney_subject_to_restrictions" → hasNot kv.2 = false) →
      ∀ c ∈ generateDeterministicCommands html data,
        ¬(c.action = "check" ∧ c.selector = inputSel "not-subject")) := by
  constructor
  · intro hv c hc hpair
    obtain ⟨hact, hsel⟩ := hpair
    rcases genDet_mem_cases html data c hc with ⟨kv, hkv, hmf⟩ | heq
    · by_cases hfield : kv.1 = "attorney_subject_to_restrictions"
      · rw [hfield] at hmf
        unfold matchField at hmf
        have hmf2 : c ∈ scanFragments html "attorney_subject_to_restrictions" kv.2
            ["not-subject", "am-subject"] := hmf
        rcases scanFragments_restr html kv.2 _ c hmf2 with ⟨-, hceq⟩ | ⟨-, hn, hceq⟩
        · rw [hceq] at hsel
          exact (by decide : inputSel "not-subject" ≠ inputSel "am-subject") hsel
        · rw [hv kv hkv hfield] at hn
          simp at hn
      · exact ((matchField_not_special html kv.1 kv.2 c hmf).2 hfield).2 hsel
    · rw [heq] at hsel
      exact (by decide : eligCmd.selector ≠ inputSel "am-subject") hsel
  · intro hv c hc hpair
    obtain ⟨hact, hsel⟩ := hpair
    rcases genDet_mem_cases html data c hc with ⟨kv, hkv, hmf⟩ | heq
    · by_cases hfield : kv.1 = "attorney_subject_to_restrictions"
      · rw [hfield] at hmf
        unfold matchField at hmf
        have hmf2 : c ∈ scanFragments html "attorney_subject_to_restrictions" kv.2
            ["not-subject", "am-subject"] := hmf
        rcases scanFragments_restr html kv.2 _ c hmf2 with ⟨hn, hceq⟩ | ⟨-, -, hceq⟩
        · rw [hv kv hkv hfield] at hn
          simp at hn
        · rw [hceq] at hsel
          exact (by decide : inputSel "am-subject" ≠ inputSel "not-subject") hsel
      · exact ((matchField_not_special html kv.1 kv.2 c hmf).2 hfield).1 hsel
    · rw [heq] at hsel
      exact (by decide : eligCmd.selector ≠ inputSel "not-subject") hsel

/-- Claim C10: the special-cased attestation field emits its `check`
operation WITHOUT testing whether the target id is present in the markup
— for every markup, including one containing neither id, a value
containing `not` yields the `not-subject` check operation, and a value
containing `am` without `not` yields the `am-subject` check operation —
unlike every other field, whose fragment scan emits nothing when no
candidate id occurs in the markup. -/
theorem c10_no_markup_presence_check (html v : String) :
    (hasNot v = true →
      (⟨"check", inputSel "not-subject", v⟩ : FillCommand) ∈
        generateDeterministicCommands html [("attorney_subject_to_restrictions", v)])
    ∧ (hasAm v = true → hasNot v = false →
      (⟨"check", inputSel "am-subject", v⟩ : FillCommand) ∈
        generateDeterministicCommands html [("attorney_subject_to_restrictions", v)])
    ∧ (∀ dataField value frs, dataField ≠ "attorney_subject_to_restrictions" →
        (∀ p ∈ frs, idPresent html p = false) →
        scanFragments html dataField value frs = []) := by
  refine ⟨?_, ?_, ?_⟩
  · intro h
    unfold generateDeterministicCommands
    apply List.mem_append_left
    rw [List.mem_flatMap]
    refine ⟨("attorney_subject_to_restrictions", v), List.mem_cons_self _ _, ?_⟩
    show _ ∈ matchField html "attorney_subject_to_restrictions" v
    unfold matchField
    show _ ∈ scanFragments html "attorney_subject_to_restrictions" v
      ["not-subject", "am-subject"]
    unfold scanFragments
    rw [if_pos rfl, if_pos (by rw [h]; rfl)]
    exact List.mem_singleton.mpr rfl
  · intro ha hn
    unfold generateDeterministicCommands
    apply List.mem_append_left
    rw [List.mem_flatMap]
    refine ⟨("attorney_subject_to_restrictions", v), List.mem_cons_self _ _, ?_⟩
    show _ ∈ matchField html "attorney_subject_to_restrictions" v
    unfold matchField
    show _ ∈ scanFragments html "attorney_subject_to_restrictions" v
      ["not-subject", "am-subject"]
    unfold scanFragments
    rw [if_pos rfl, if_neg (by rw [hn]; simp),
      if_neg (by rw [show (("not-subject" : String) == "am-subject") = false from rfl]; simp)]
    unfold scanFragments
    rw [if_pos rfl, if_neg (by rw [hn]; simp), if_pos (by rw [ha, hn]; rfl)]
    exact List.mem_singleton.mpr rfl
  · intro dataField value frs hfield habs
    exact scanFragments_absent html dataField value hfield frs habs

/-- Claim C1 counterexample: with a markup containing only the shared id
fragment `last-name`, both `attorney_family_name` and
`beneficiary_last_name` deterministically emit an operation on
`inputSel "last-name"`, so the merged list has two operations with the
same selector. -/
theorem c1_duplicate_selector_counterexample :
    (generateFillCommands htmlC1cex recC1cex.toDict []).map (fun c => c.selector) =
      [inputSel "last-name", inputSel "last-name"] ∧
    ¬ ((generateFillCommands htmlC1cex recC1cex.toDict []).map fun c => c.selector).Nodup :=
  ⟨by decide, by decide⟩

/-- Claim C1 witness: a deterministic command and a surviving model
command from a concrete run have different selectors. -/
theorem c1_cross_dedup_witness :
    (⟨"fill", inputSel "family-name", "Smith"⟩ : FillCommand) ∈
      generateDeterministicCommands htmlC1w recC1w.toDict ∧
    (⟨"fill", inputSel "client-email", "zzz@q.com"⟩ : FillCommand) ∈
      llmPart htmlC1w recC1w.toDict llmC1w ∧
    (FillCommand.mk "fill" (inputSel "family-name") "Smith").selector ≠
      (FillCommand.mk "fill" (inputSel "client-email") "zzz@q.com").selector :=
  ⟨by decide, by decide,
   c1_cross_dedup htmlC1w recC1w.toDict llmC1w _ _ (by decide) (by decide)⟩

/-- Claim C2 counterexample: `client_email` is non-null and the
deterministic pass emits no operation for it (its only command targets
`city` with value `Paris`), yet the residual set is empty, because the
value `"a"` is a substring of `"Paris"` — the claim requires
`client_email` to be in the residual set. -/
theorem c2_residual_counterexample :
    ("client_email", "a") ∈ recC2cex.toDict ∧
    generateDeterministicCommands htmlC2cex recC2cex.toDict =
      [⟨"fill", inputSel "city", "Paris"⟩] ∧
    remainingData htmlC2cex recC2cex.toDict = [] :=
  ⟨by decide, by decide, by decide⟩

/-- Claim C2 witness: a deterministically matched field is excluded from
the residual set, and an unmatched field whose value occurs in no command
value is included. -/
theorem c2_residual_amended_witness :
    ("attorney_city", "Paris") ∈ recC2w.toDict ∧
    matchField htmlC2w "attorney_city" "Paris" ≠ [] ∧
    ("attorney_city", "Paris") ∉ remainingData htmlC2w recC2w.toDict ∧
    ("client_email", "zzz") ∈ remainingData htmlC2w recC2w.toDict :=
  ⟨by decide, by decide,
   (c2_residual_amended htmlC2w recC2w.toDict "attorney_city" "Paris").1
     (by decide) (by decide),
   (c2_residual_amended htmlC2w recC2w.toDict "client_email" "zzz").2
     (by decide) (by decide)⟩

/-- Claim C4 counterexample: the `type="date"` cue sits on a DIFFERENT
element (`dob`), not on the matched `city` element, yet the generated
action for `attorney_city` is `date` instead of the `fill` the claim
requires. -/
theorem c4_global_cue_counterexample :
    generateDeterministicCommands htmlC4cex recC4cex.toDict =
      [⟨"date", inputSel "city", "Paris"⟩] ∧
    ("date" : String) ≠ "fill" :=
  ⟨by decide, by decide⟩

/-- Claim C4 witness: the four classification outcomes at concrete
markups. -/
theorem c4_action_classification_amended_witness :
    generateDeterministicCommands htmlC4sel [("attorney_city", "Paris")] =
      [⟨"select", selectSel "city", "Paris"⟩] ∧
    generateDeterministicCommands htmlC4date [("attorney_city", "Paris")] =
      [⟨"date", inputSel "city", "Paris"⟩] ∧
    generateDeterministicCommands htmlC4chk [("attorney_city", "Paris")] =
      [⟨"check", inputSel "city", "Paris"⟩] ∧
    generateDeterministicCommands htmlC4fill [("attorney_city", "Paris")] =
      [⟨"fill", inputSel "city", "Paris"⟩] :=
  ⟨(c4_action_classification_amended htmlC4sel "Paris" (by decide) (by decide)).1
     (by decide),
   (c4_action_classification_amended htmlC4date "Paris" (by decide) (by decide)).2.1
     (by decide) (by decide),
   (c4_action_classification_amended htmlC4chk "Paris" (by decide) (by decide)).2.2.1
     (by decide) (by decide) (by decide),
   (c4_action_classification_amended htmlC4fill "Paris" (by decide) (by decide)).2.2.2
     (by decide) (by decide) (by decide)⟩

/-- Claim C5 counterexample: in a run where both the derived
eligibility operation and a surviving model operation are present, the
eligibility operation sits BETWEEN the deterministic field operation and
the model operation — it is not last, contradicting the claimed order. -/
theorem c5_elig_not_last_counterexample :
    (generateFillCommands htmlC5cex recC5cex.toDict llmC5cex).map (fun c => c.selector) =
      [inputSel "family-name", inputSel "attorney-eligible", inputSel "client-email"] ∧
    eligCmd ∈ generateFillCommands htmlC5cex recC5cex.toDict llmC5cex ∧
    (generateFillCommands htmlC5cex recC5cex.toDict llmC5cex).getLast? ≠ some eligCmd :=
  ⟨by decide, by decide, by decide⟩

/-- Claim C7 witness: an upper-case negated value produces no `am-subject`
check, and an upper-case non-negated value produces no `not-subject`
check. -/
theorem c7_restrictions_casing_witness :
    (∀ kv ∈ recC7a.toDict, kv.1 = "attorney_subject_to_restrictions" →
      hasNot kv.2 = true) ∧
    (∀ c ∈ generateDeterministicCommands htmlC7w recC7a.toDict,
      ¬(c.action = "check" ∧ c.selector = inputSel "am-subject")) ∧
    (∀ kv ∈ recC7b.toDict, kv.1 = "attorney_subject_to_restrictions" →
      hasNot kv.2 = false) ∧
    (∀ c ∈ generateDeterministicCommands htmlC7w recC7b.toDict,
      ¬(c.action = "check" ∧ c.selector = inputSel "not-subject")) :=
  ⟨by decide, (c7_restrictions_casing htmlC7w recC7a.toDict).1 (by decide),
   by decide, (c7_restrictions_casing htmlC7w recC7b.toDict).2 (by decide)⟩

/-- Claim C10 witness: on a markup containing NO input ids at all, the
attestation field still emits its check operation, while an ordinary
field (here `attorney_city`) emits nothing. -/
theorem c10_no_markup_presence_check_witness :
    hasNot "I am NOT subject" = true ∧
    (⟨"check", inputSel "not-subject", "I am NOT subject"⟩ : FillCommand) ∈
      generateDeterministicCommands htmlC10w
        [("attorney_subject_to_restrictions", "I am NOT subject")] ∧
    hasAm "I AM subject" = true ∧
    hasNot "I AM subject" = false ∧
    (⟨"check", inputSel "am-subject", "I AM subject"⟩ : FillCommand) ∈
      generateDeterministicCommands htmlC10w
        [("attorney_subject_to_restrictions", "I AM subject")] ∧
    scanFragments htmlC10w "attorney_city" "Paris" ["city", "town"] = [] :=
  ⟨by decide,
   (c10_no_markup_presence_check htmlC10w "I am NOT subject").1 (by decide),
   by decide, by decide,
   (c10_no_markup_presence_check htmlC10w "I AM subject").2.1 (by decide) (by decide),
   (c10_no_markup_presence_check htmlC10w "Paris").2.2 "attorney_city" "Paris"
     ["city", "town"] (by decide) (by decide)⟩

theorem extractAllData_of_body_error (p g : Option String) (env : ExtractEnv)
    (e : String) (h : extractBody p g env = Except.error e) :
    extractAllData p g env = FormA28Data.empty := by
  unfold extractAllData
  rw [h]

theorem extractBody_first_error (p g : Option String) (env : ExtractEnv)
    (e : String)
    (h : uploadStep p env.passportFileExists env.passportUpload env.passportPolls =
      Except.error e) :
    extractBody p g env = Except.error e := by
  unfold extractBody
  rw [h]
  rfl

theorem uploadStep_error (p : String) (hp : p ≠ "") (fe : Bool)
    (up : Except String GFile) (polls : List (Except String GFile)) (e : String)
    (h : uploadDocumentToGemini p fe up polls = Except.error e) :
    uploadStep (some p) fe up polls = Except.error e := by
  show (if p = "" then (Except.ok [] : Except String (List GFile))
    else Except.map (fun f => [f]) (uploadDocumentToGemini p fe up polls)) =
      Except.error e
  rw [if_neg hp, h]
  rfl

theorem uploadStep_ok (p : String) (hp : p ≠ "") (fe : Bool)
    (up : Except String GFile) (polls : List (Except String GFile)) (f : GFile)
    (h : uploadDocumentToGemini p fe up polls = Except.ok f) :
    uploadStep (some p) fe up polls = Except.ok [f] := by
  show (if p = "" then (Except.ok [] : Except String (List GFile))
    else Except.map (fun f2 => [f2]) (uploadDocumentToGemini p fe up polls)) =
      Except.ok [f]
  rw [if_neg hp, h]
  rfl

theorem udg_no_file (p : String) (up : Except String GFile)
    (polls : List (Except String GFile)) :
    uploadDocumentToGemini p false up polls = Except.error "File not found" := by
  unfold uploadDocumentToGemini
  rw [if_pos (Or.inr rfl)]

theorem udg_upload_error (p : String) (hp : p ≠ "")
    (polls : List (Except String GFile)) (e : String) :
    uploadDocumentToGemini p true (Except.error e) polls = Except.error e := by
  unfold uploadDocumentToGemini
  rw [if_neg (by simp [hp])]

theorem udg_ok (p : String) (hp : p ≠ "") (f : GFile)
    (polls : List (Except String GFile)) :
    uploadDocumentToGemini p true (Except.ok f) polls = pollUntilDone f polls := by
  unfold uploadDocumentToGemini
  rw [if_neg (by simp [hp])]

theorem pollUntilDone_get_error (f : GFile) (h : f.state = "PROCESSING")
    (e : String) (rest : List (Except String GFile)) :
    pollUntilDone f (Except.error e :: rest) = Except.error e := by
  unfold pollUntilDone
  rw [if_pos h]

theorem pollUntilDone_failed (f : GFile) (h : f.state = "FAILED")
    (polls : List (Except String GFile)) :
    pollUntilDone f polls = Except.error "File processing failed" := by
  cases polls with
  | nil =>
    unfold pollUntilDone
    rw [h]
    rfl
  | cons g rest =>
    unfold pollUntilDone
    rw [h]
    rfl

theorem pollUntilDone_done (f : GFile) (h1 : f.state ≠ "PROCESSING")
    (h2 : f.state ≠ "FAILED") :
    pollUntilDone f [] = Except.ok f := by
  unfold pollUntilDone
  rw [if_neg h1, if_neg h2]

/-- Claim C8: `extract_all_data` never propagates an exception — it
always returns a record — and in every failure scenario the returned
record has every field absent: when no file paths are supplied; when any
body step fails (umbrella conjunct); and specifically when the file is
missing, the upload call raises, a status poll raises, processing
terminates in the FAILED state, the extraction request raises, or the
response fails to parse. -/
theorem c8_extraction_error_handling :
    (∀ env : ExtractEnv, extractAllData none none env = FormA28Data.empty ∧
      FormA28Data.allAbsent (extractAllData none none env) = true) ∧
    (∀ p g env e, extractBody p g env = Except.error e →
      extractAllData p g env = FormA28Data.empty ∧
      FormA28Data.allAbsent (extractAllData p g env) = true) ∧
    (∀ (p : String) g env, p ≠ "" → env.passportFileExists = false →
      extractAllData (some p) g env = FormA28Data.empty) ∧
    (∀ (p : String) g env e, p ≠ "" → env.passportFileExists = true →
      env.passportUpload = Except.error e →
      extractAllData (some p) g env = FormA28Data.empty) ∧
    (∀ (p : String) g env f e rest, p ≠ "" → env.passportFileExists = true →
      env.passportUpload = Except.ok f → f.state = "PROCESSING" →
      env.passportPolls = Except.error e :: rest →
      extractAllData (some p) g env = FormA28Data.empty) ∧
    (∀ (p : String) g env f, p ≠ "" → env.passportFileExists = true →
      env.passportUpload = Except.ok f → f.state = "FAILED" →
      extractAllData (some p) g env = FormA28Data.empty) ∧
    (∀ (p : String) env f e, p ≠ "" → env.passportFileExists = true →
      env.passportUpload = Except.ok f → f.state = "ACTIVE" →
      env.passportPolls = [] → env.generate [f] = Except.error e →
      extractAllData (some p) none env = FormA28Data.empty) ∧
    (∀ (p : String) env f t e, p ≠ "" → env.passportFileExists = true →
      env.passportUpload = Except.ok f → f.state = "ACTIVE" →
      env.passportPolls = [] → env.generate [f] = Except.ok t →
      env.parse t = Except.error e →
      extractAllData (some p) none env = FormA28Data.empty) := by
  have hstep : ∀ (p : String) g env e, p ≠ "" →
      uploadDocumentToGemini p env.passportFileExists env.passportUpload
        env.passportPolls = Except.error e →
      extractAllData (some p) g env = FormA28Data.empty := by
    intro p g env e hp h
    exact extractAllData_of_body_error _ _ _ e
      (extractBody_first_error _ _ _ e (uploadStep_error p hp _ _ _ e h))
  refine ⟨?_, ?_, ?_, ?_, ?_, ?_, ?_, ?_⟩
  · intro env
    exact ⟨rfl, rfl⟩
  · intro p g env e h
    have := extractAllData_of_body_error p g env e h
    rw [this]
    exact ⟨rfl, rfl⟩
  · intro p g env hp hfe
    apply hstep p g env _ hp
    rw [hfe]
    exact udg_no_file p _ _
  · intro p g env e hp hfe hup
    apply hstep p g env e hp
    rw [hfe, hup]
    exact udg_upload_error p hp _ e
  · intro p g env f e rest hp hfe hup hst hpolls
    apply hstep p g env e hp
    rw [hfe, hup, hpolls, udg_ok p hp f _]
    exact pollUntilDone_get_error f hst e rest
  · intro p g env f hp hfe hup hst
    apply hstep p g env _ hp
    rw [hfe, hup, udg_ok p hp f _]
    exact pollUntilDone_failed f hst _
  · intro p env f e hp hfe hup hst hpolls hg
    apply extractAllData_of_body_error _ _ _ e
    have hus : uploadStep (some p) env.passportFileExists env.passportUpload
        env.passportPolls = Except.ok [f] := by
      apply uploadStep_ok p hp _ _ _ f
      rw [hfe, hup, hpolls, udg_ok p hp f _]
      exact pollUntilDone_done f (by rw [hst]; decide) (by rw [hst]; decide)
    unfold extractBody
    rw [hus]
    show (env.generate [f]).bind (fun t => env.parse t) = Except.error e
    rw [hg]
    rfl
  · intro p env f t e hp hfe hup hst hpolls hg hparse
    apply extractAllData_of_body_error _ _ _ e
    have hus : uploadStep (some p) env.passportFileExists env.passportUpload
        env.passportPolls = Except.ok [f] := by
      apply uploadStep_ok p hp _ _ _ f
      rw [hfe, hup, hpolls, udg_ok p hp f _]
      exact pollUntilDone_done f (by rw [hst]; decide) (by rw [hst]; decide)
    unfold extractBody
    rw [hus]
    show (env.generate [f]).bind (fun t2 => env.parse t2) = Except.error e
    rw [hg]
    show env.parse t = Except.error e
    exact hparse

/-- Claim C8 witness: each failure scenario at a concrete environment
returns the fully-absent record. -/
theorem c8_extraction_error_handling_witness :
    (extractAllData none none envC8 = FormA28Data.empty ∧
      FormA28Data.allAbsent (extractAllData none none envC8) = true) ∧
    extractAllData (some "passport.pdf") none
      { envC8 with passportFileExists := false } = FormA28Data.empty ∧
    extractAllData (some "passport.pdf") none
      { envC8 with passportUpload := Except.error "upload failed" } =
        FormA28Data.empty ∧
    extractAllData (some "passport.pdf") none
      { envC8 with
        passportUpload := Except.ok gfileProc
        passportPolls := [Except.error "get failed"] } = FormA28Data.empty ∧
    extractAllData (some "passport.pdf") none
      { envC8 with passportUpload := Except.ok gfileFail } = FormA28Data.empty ∧
    extractAllData (some "passport.pdf") none envC8 = FormA28Data.empty ∧
    extractAllData (some "passport.pdf") none
      { envC8 with generate := fun _ => Except.ok "not json" } = FormA28Data.empty :=
  ⟨c8_extraction_error_handling.1 envC8,
   c8_extraction_error_handling.2.2.1 "passport.pdf" none _ (by decide) rfl,
   c8_extraction_error_handling.2.2.2.1 "passport.pdf" none _ "upload failed"
     (by decide) rfl rfl,
   c8_extraction_error_handling.2.2.2.2.1 "passport.pdf" none _ gfileProc
     "get failed" [] (by decide) rfl rfl rfl rfl,
   c8_extraction_error_handling.2.2.2.2.2.1 "passport.pdf" none _ gfileFail
     (by decide) rfl rfl rfl,
   c8_extraction_error_handling.2.2.2.2.2.2.1 "passport.pdf" envC8 gfileDone
     "boom" (by decide) rfl rfl rfl rfl rfl,
   c8_extraction_error_handling.2.2.2.2.2.2.2 "passport.pdf" _ gfileDone
     "not json" "bad json" (by decide) rfl rfl rfl rfl rfl rfl⟩
